import Mathlib

/-!
Verification of the OpenSSL upgrade agent
(`openssl_agent_all_unix_and_windows.py`) against its design
specification.

The Python source is shallowly embedded below.  The host environment
(which executables are on the PATH, what each external command prints
and returns, which files exist, user confirmation answers, ...) is an
explicit `Env` record of oracles; every embedded operation is a pure
Lean function of the `Env`.  External observable behaviour is captured
by an `Event` trace: one `Event.cmd` per `subprocess.run` invocation
(in invocation order), plus markers for the backup snapshot and the
report generation, which perform only local file writes and no
external commands in the source.
-/

namespace OpensslAgent

/-- Observable events of a run: an external command invocation
(`run_cmd` / `subprocess.run`), completion of the backup snapshot
(`prepare_backup`, which copies files locally but invokes no external
command), and generation of the report (`generate_readme`). -/
inductive Event where
  | cmd : List String → Event
  | backup : Event
  | report : Event
deriving DecidableEq

/-- `CommandResult` of the data model: the record `run_cmd` returns for
one external invocation (timestamp and stderr omitted: no claim
mentions them). -/
structure CommandResult where
  cmd : List String
  exit : Int
  stdout : String
deriving DecidableEq

/-- One smoke check of `run_smoke_tests` (`{'name': ..., 'ok': ...}`). -/
structure SmokeCheck where
  name : String
  ok : Bool
deriving DecidableEq

/-- Result of `side_install_from_source`: the Python dict with keys
`status`, `steps`, and (only when set) `prefix`.  The `prefix` key is
absent from the initial dict and only ever added by reachable code on
the success path, hence an `Option`. -/
structure BuildResult where
  status : String
  steps : List CommandResult
  pfx? : Option String
deriving DecidableEq

/-- Terminal result of `decide_and_execute`: the returned dict's
`status` field plus its `success` field (absent for a dry run). -/
structure RunResult where
  status : String
  success : Option Bool
deriving DecidableEq

/-- Python's substring test `pat in s` (`str.__contains__`). -/
def strContains (s pat : String) : Bool := decide (pat.data <:+: s.data)

/-- Python's `str.split(sep)`: every separator the source passes is a
single-character string, so the split is embedded as the cut at each
occurrence of that character (empty pieces kept, as in Python). -/
def pySplitOn (s : String) (sep : Char) : List String :=
  (s.data.splitOnP (fun c => c = sep)).map String.mk

/-- Python's `str.splitlines()` for newline-separated text: the
newline-separated pieces, without an empty piece after a trailing
newline. -/
def pySplitLines (s : String) : List String :=
  let parts := pySplitOn s (Char.ofNat 10)
  if parts.getLast? = some "" then parts.dropLast else parts

/-- Python's `str.strip()` (the embedding's whitespace set is space,
tab, carriage return and newline). -/
def pyStrip (s : String) : String :=
  String.mk
    (((s.data.dropWhile Char.isWhitespace).reverse.dropWhile
      Char.isWhitespace).reverse)

/-- Python's no-argument `str.split()`: maximal runs of non-whitespace
characters. -/
def pyWhitespaceSplit (s : String) : List String :=
  ((s.data.splitOnP Char.isWhitespace).filter (fun w => w ≠ [])).map String.mk

/-- Python's `str.lower()` (ASCII is all the source ever feeds it). -/
def pyToLower (s : String) : String := String.mk (s.data.map Char.toLower)

/-- Python's `str.startswith(pat)`. -/
def pyStartsWith (s pat : String) : Bool := pat.data.isPrefixOf s.data

/-- Python's `str.replace(pat, rep)` for a single-character pattern
(the only pattern the source passes): replacing every occurrence,
i.e. joining the split pieces with the replacement. -/
def pyReplace (s : String) (pat : Char) (rep : String) : String :=
  String.intercalate rep (pySplitOn s pat)

/-- Code-point comparison of character lists, Python's `str.__le__`. -/
def charListLe : List Char → List Char → Bool
  | [], _ => true
  | _ :: _, [] => false
  | a :: as, b :: bs => if a = b then charListLe as bs else decide (a < b)

/-- Python's string comparison `x <= y`, used by `sorted`. -/
def pyStrLe (x y : String) : Bool := charListLe x.data y.data

/-- The host environment and CLI arguments, as oracles.
`run c` yields the `(returncode, stdout)` recorded for executing
command `c` — the stdout as stored in the CommandResult, which the
source strips before recording (`subprocess.run` never raises here:
`run_cmd` catches every exception and synthesizes exit 255, so a
total oracle is faithful).
`whichPath t` is `shutil.which(t)`.  `confirmAnswer items` is whether
the interactive prompt for `items` is answered with the letter y
(an EOF counts as a no-answer).  `glob pat` lists the files matching
pattern `pat`.  `copyOk p` is whether `shutil.copy2` from source path
`p` succeeds.  `urlFetchOk` is whether the `urllib` fallback download
succeeds.  `writeLdConfOk` is whether writing the ld.so.conf.d
fragment succeeds.  `workdir` is the `tempfile.mkdtemp` result and
`cpuCount` is `os.cpu_count() or 1` (0 standing for a `None` return).
`systemRoot` is `os.environ.get('SystemRoot', 'C:\\Windows')`. -/
structure Env where
  platform : String
  appPath : Option String
  targetVersion : String
  dryRun : Bool
  force : Bool
  healthUrl : Option String
  whichPath : String → Option String
  run : List String → Int × String
  pathExists : String → Bool
  dirExists : String → Bool
  glob : String → List String
  copyOk : String → Bool
  urlFetchOk : Bool
  writeLdConfOk : Bool
  workdir : String
  cpuCount : Nat
  systemRoot : String
  confirmAnswer : List String → Bool

/-- `shutil.which(t)` used as a boolean. -/
def Env.which (env : Env) (t : String) : Bool := (env.whichPath t).isSome

/-- The utility the source names with `run` and `cmd` joined by an
underscore (that exact spelling is a Lean command keyword, so the
embedding uses `runCmd`): prepends `sudo` when requested and not on
Windows (`os.name != 'nt'` holds exactly off the `windows` family),
executes, and returns the `CommandResult` plus the trace event. -/
def runCmd (env : Env) (useSudo : Bool) (c : List String) :
    CommandResult × List Event :=
  let c' := if useSudo ∧ env.platform ≠ "windows" then "sudo" :: c else c
  let r := env.run c'
  ({cmd := c', exit := r.1, stdout := r.2}, [Event.cmd c'])

/-- `detect_openssl_cli`: runs the version query when `openssl` is on
the PATH, else records the sentinel-254 not-found entry (no external
command). -/
def detect_openssl_cli (env : Env) : CommandResult × List Event :=
  if env.which "openssl" then
    runCmd env false ["openssl", "version", "-a"]
  else
    ({cmd := ["openssl not found"], exit := 254, stdout := ""}, [])

/-- The probe list of `detect_package_managers`. -/
def pmProbeList : List String :=
  ["apt", "dnf", "yum", "apk", "zypper", "brew", "pkg", "pkgutil",
   "swinstall", "pkgadd", "installp", "rpm", "dpkg", "choco", "winget"]

/-- `detect_package_managers`: the probed names present on the PATH,
in probe order. -/
def detect_package_managers (env : Env) : List String :=
  pmProbeList.filter env.which

/-- An ASCII apostrophe (code point 39), as it appears inside the
PowerShell command string of the source. -/
def singleQuote : String := String.mk [Char.ofNat 39]

/-- `detect_application_linking(app_path)`: sentinel 254 when the app
path does not exist; otherwise the first available inspection tool of
the platform family, sentinel 253 when none is available. -/
def detect_application_linking (env : Env) (appPath : String) :
    CommandResult × List Event :=
  let posix := ["linux", "darwin", "sunos", "aix", "hp-ux"].contains env.platform
  if env.pathExists appPath = false then
    ({cmd := ["app not found: " ++ appPath], exit := 254, stdout := ""}, [])
  else if posix ∧ env.which "ldd" then
    runCmd env false ["ldd", appPath]
  else if posix ∧ env.platform = "darwin" ∧ env.which "otool" then
    runCmd env false ["otool", "-L", appPath]
  else if posix ∧ env.platform = "aix" ∧ env.which "dump" then
    runCmd env false ["dump", "-H", appPath]
  else if posix ∧ env.platform = "hp-ux" ∧ env.which "chatr" then
    runCmd env false ["chatr", appPath]
  else if env.platform = "windows" then
    runCmd env false
      ["powershell", "-Command",
       "Get-Process -FileVersionInfo (Get-Item " ++ singleQuote ++ appPath ++
         singleQuote ++ ").VersionInfo | Out-String"]
  else
    ({cmd := ["no-linking-tool-found"], exit := 253, stdout := ""}, [])

/-- Helper for the regular expression fragment that follows the arrow
marker in a dynamic-linker listing line (whitespace-plus, a maximal
non-whitespace group, whitespace-plus, an opening parenthesis): given
the characters after the two-character arrow, returns the captured
group when the fragment matches here. -/
def arrowAfter (cs : List Char) : Option (List Char) :=
  let p₁ := cs.span Char.isWhitespace
  if p₁.1.isEmpty then none
  else
    let p₂ := p₁.2.span (fun c => !c.isWhitespace)
    if p₂.1.isEmpty then none
    else
      let p₃ := p₂.2.span Char.isWhitespace
      if p₃.1.isEmpty then none
      else if p₃.2.head? = some (Char.ofNat 40) then some p₂.1 else none

/-- `re.search` of the linker-line pattern over one line: leftmost
arrow occurrence from which the remainder of the pattern matches,
returning the captured library path. -/
def arrowScan : List Char → Option (List Char)
  | [] => none
  | c :: rest =>
    if c = Char.ofNat 61 ∧ rest.head? = some (Char.ofNat 62) then
      match arrowAfter rest.tail with
      | some tok => some tok
      | none => arrowScan rest
    else arrowScan rest

/-- Library paths extracted from `ldd` output in
`upgrade_application_dependencies` (linux/sunos branch): each line's
regex capture, kept when the path exists on disk. -/
def extractLddLibs (env : Env) (out : String) : List String :=
  ((pySplitLines out).filterMap (fun line =>
    (arrowScan line.data).map (fun t => String.mk t))).filter env.pathExists

/-- Library paths extracted from `otool -L` output (darwin branch):
stripped lines starting with a slash, first whitespace-separated
token, kept when the path exists on disk. -/
def extractOtoolLibs (env : Env) (out : String) : List String :=
  (((pySplitLines out).map pyStrip).filterMap (fun line =>
    if pyStartsWith line "/" then
      (pyWhitespaceSplit line).head?
    else none)).filter env.pathExists

/-- Library paths extracted from `ldd` output on the aix branch of
`upgrade_application_dependencies`: same regex, but with no exit-code
check and no existence filter in the source. -/
def extractAixLibs (out : String) : List String :=
  (pySplitLines out).filterMap (fun line =>
    (arrowScan line.data).map (fun t => String.mk t))

/-- One line of `lslpp -w` output as parsed by `resolve_package_owner`
(aix branch): when the library path occurs in the line and the line
has at least two whitespace-separated fields, the second field is the
owning package. -/
def aixOwnerOfLine (libPath line : String) : Option String :=
  if strContains line libPath then
    match pyWhitespaceSplit line with
    | _ :: second :: _ => some second
    | _ => none
  else none

/-- `resolve_package_owner(lib_path)` together with the commands it
executes.  Mirrors the source branch by branch; the final fall-through
of every branch is `None`. -/
def resolve_package_owner (env : Env) (libPath : String) :
    Option String × List Event :=
  if env.platform = "linux" then
    if env.which "dpkg" then
      let rt := runCmd env false ["dpkg", "-S", libPath]
      if rt.1.exit = 0 ∧ strContains rt.1.stdout ":" then
        (some (pyStrip ((pySplitOn rt.1.stdout (Char.ofNat 58)).headD "")), rt.2)
      else (none, rt.2)
    else if env.which "rpm" then
      let rt := runCmd env false ["rpm", "-qf", libPath]
      if rt.1.exit = 0 then (some (pyStrip rt.1.stdout), rt.2) else (none, rt.2)
    else (none, [])
  else if env.platform = "darwin" then
    -- heuristic on the Cellar directory layout; the index lookup
    -- raises (and is caught) when Cellar is not an exact segment
    if strContains libPath "Cellar" then
      let parts := pySplitOn libPath (Char.ofNat 47)
      if parts.contains "Cellar" then
        let idx := parts.indexOf "Cellar"
        if idx + 1 < parts.length then (some (parts.getD (idx + 1) ""), [])
        else (none, [])
      else (none, [])
    else (none, [])
  else if env.platform = "aix" then
    let rt := runCmd env false ["lslpp", "-w", libPath]
    ((pySplitLines rt.1.stdout).findSome? (aixOwnerOfLine libPath), rt.2)
  else if env.platform = "sunos" then
    if env.which "pkg" then
      let rt := runCmd env false
        ["pkg", "search", "-l", "-H", "-o", "pkg.name", libPath]
      if rt.1.exit = 0 ∧ pyStrip rt.1.stdout ≠ "" then
        ((pyWhitespaceSplit (pyStrip rt.1.stdout)).head?, rt.2)
      else (none, rt.2)
    else if env.which "pkgchk" then
      -- the source runs the legacy tool but intentionally skips
      -- parsing its output
      (none, (runCmd env false ["pkgchk", "-l", "-p", libPath]).2)
    else (none, [])
  else if env.platform = "windows" then
    if strContains (pyToLower libPath) "chocolatey" ∧
        strContains (pyToLower libPath) "lib" then
      let parts := pySplitOn (pyReplace libPath (Char.ofNat 92) "/") (Char.ofNat 47)
      if parts.contains "lib" then
        let idx := parts.indexOf "lib"
        if idx + 1 < parts.length then (some (parts.getD (idx + 1) ""), [])
        else (none, [])
      else (none, [])
    else (none, [])
  else (none, [])

/-- `confirm_upgrade(items)`: `--force` proceeds automatically,
otherwise the user's interactive answer decides. -/
def confirm_upgrade (env : Env) (items : List String) : Bool :=
  if env.force then true else env.confirmAnswer items

/-- Insertion into a sorted list of strings, for Python's `sorted`. -/
def insertSorted (x : String) : List String → List String
  | [] => [x]
  | y :: ys => if pyStrLe x y then x :: y :: ys else y :: insertSorted x ys

/-- Python's `sorted` on a list of strings (code-point order). -/
def sortStrings (l : List String) : List String := l.foldr insertSorted []

/-- The upgrade-target substrings excluded by the dependency
coordinator. -/
def openssl_terms : List String := ["openssl", "libssl", "libcrypto"]

/-- The linked libraries discovered by
`upgrade_application_dependencies` (step 1), with the trace of the
inspection commands it runs.  The hp-ux and windows branches run their
tool but leave parsing unimplemented; unknown platforms collect
nothing. -/
def dependencyLibs (env : Env) (appPath : String) :
    List String × List Event :=
  if env.platform = "linux" ∨ env.platform = "sunos" then
    let rt := runCmd env false ["ldd", appPath]
    ((if rt.1.exit = 0 then extractLddLibs env rt.1.stdout else []), rt.2)
  else if env.platform = "darwin" then
    let rt := runCmd env false ["otool", "-L", appPath]
    ((if rt.1.exit = 0 then extractOtoolLibs env rt.1.stdout else []), rt.2)
  else if env.platform = "aix" then
    if env.which "ldd" then
      let rt := runCmd env false ["ldd", appPath]
      (extractAixLibs rt.1.stdout, rt.2)
    else ([], [])
  else if env.platform = "hp-ux" then
    if env.which "chatr" then
      ([], (runCmd env false ["chatr", appPath]).2)
    else ([], [])
  else if env.platform = "windows" then
    if env.which "dumpbin" then
      ([], (runCmd env false ["dumpbin", "/DEPENDENTS", appPath]).2)
    else ([], [])
  else ([], [])

/-- The platform upgrade command issued by
`upgrade_application_dependencies` (step 4) for a confirmed,
non-empty package list, as a trace. -/
def dependencyUpgradeCmds (env : Env) (pkgs : List String) : List Event :=
  if env.platform = "linux" then
    if env.which "apt" then
      (runCmd env true (["apt", "install", "--only-upgrade", "-y"] ++ pkgs)).2
    else if env.which "yum" then
      (runCmd env true (["yum", "update", "-y"] ++ pkgs)).2
    else if env.which "dnf" then
      (runCmd env true (["dnf", "update", "-y"] ++ pkgs)).2
    else if env.which "apk" then
      (runCmd env true (["apk", "add", "--upgrade"] ++ pkgs)).2
    else []
  else if env.platform = "darwin" then
    if env.which "brew" then (runCmd env false (["brew", "upgrade"] ++ pkgs)).2
    else []
  else if env.platform = "windows" then
    if env.which "choco" then
      (runCmd env false (["choco", "upgrade", "-y"] ++ pkgs)).2
    else []
  else if env.platform = "sunos" then
    if env.which "pkg" then (runCmd env true (["pkg", "update"] ++ pkgs)).2
    else []
  else if env.platform = "aix" then
    if env.which "yum" then
      (runCmd env true (["yum", "update", "-y"] ++ pkgs)).2
    else []
  else []

/-- `upgrade_application_dependencies(app_path)`: discover linked
libraries, resolve each to an owning package, deduplicate, exclude
packages whose name contains an OpenSSL term, sort, and — after
confirmation — run the platform upgrade command.  Returns the trace of
executed commands. -/
def upgrade_application_dependencies (env : Env) (appPath : String) :
    List Event :=
  let libsPair := dependencyLibs env appPath
  let resolved := libsPair.1.map (resolve_package_owner env)
  let t₂ := libsPair.2 ++ (resolved.map Prod.snd).flatten
  let pkgs := (resolved.filterMap Prod.fst).eraseDups
  let toUpgrade := sortStrings (pkgs.filter (fun p =>
    !(openssl_terms.any (fun x => strContains p x))))
  if toUpgrade.isEmpty then t₂
  else if confirm_upgrade env toUpgrade then
    t₂ ++ dependencyUpgradeCmds env toUpgrade
  else t₂

/-- The final path component, as `pathlib.Path(p).name` (the windows
flavour also splits on backslashes). -/
def baseName (p : String) : String :=
  (pySplitOn ((pySplitOn p (Char.ofNat 47)).getLastD p) (Char.ofNat 92)).getLastD p

/-- The library glob patterns of `prepare_backup`, per platform. -/
def backupLibGlobs (env : Env) : List String :=
  if env.platform = "windows" then
    [env.systemRoot ++ "\\System32\\libssl*"]
  else
    ["/usr/lib*/libssl*", "/usr/local/lib*/libssl*", "/opt/lib*/libssl*",
     "/usr/lib*/libcrypto*", "/usr/local/lib*/libcrypto*"]

/-- Adding a destination name to the backup directory listing when it
is not already present (`shutil.copy2` to an existing destination
overwrites it and adds no second directory entry). -/
def copyIfAbsent (name : String) (files : List String) : List String :=
  if files.contains name then files else files ++ [name]

/-- One iteration of the library-copy loop of `prepare_backup`: skip
if a destination of the same derived name already exists, otherwise
attempt the copy (a failing copy is caught and skipped). -/
def backupLibStep (env : Env) (files : List String) (p : String) :
    List String :=
  let dest := "lib_" ++ baseName p
  if files.contains dest then files
  else if env.copyOk p then files ++ [dest] else files

/-- `prepare_backup()` acting on the backup directory listing:
copy the tool binary under the fixed name `openssl_binary` with its
checksum sidecar (both overwriting), then copy each glob-matched
library file once under its derived `lib_`-prefixed name.  The
trailing archive step writes next to (not into) the backup directory
and does not change its listing. -/
def prepare_backup (env : Env) (files : List String) : List String :=
  let files₁ :=
    if env.which "openssl" then
      copyIfAbsent "openssl_binary.sha256" (copyIfAbsent "openssl_binary" files)
    else files
  (((backupLibGlobs env).map env.glob).flatten).foldl (backupLibStep env) files₁

/-- The install path used by `side_install_from_source`: the explicit
argument, defaulting to the versioned /opt path. -/
def sideInstallPfx (version : String) (p : Option String) : String :=
  match p with
  | some s => s
  | none => "/opt/openssl-" ++ version

/-- The preflight build-tool check of `side_install_from_source`
(step 0), in source order. -/
def missingBuildTools (env : Env) : List String :=
  if env.platform = "windows" then
    (if !env.which "perl" then ["perl"] else []) ++
    (if !(env.which "cl" ∨ env.which "gcc") then ["C compiler (cl or gcc)"]
     else [])
  else
    (if !env.which "make" ∧ !env.which "gmake" then ["make"] else []) ++
    (if !env.which "perl" then ["perl"] else []) ++
    (if !(env.which "gcc" ∨ env.which "cc" ∨ env.which "clang")
     then ["C compiler"] else [])

/-- The primary (curl) download command of the build pipeline. -/
def downloadCmd (env : Env) (version : String) : List String :=
  ["bash", "-lc",
   "curl -fL https://www.openssl.org/source/openssl-" ++ version ++
     ".tar.gz -o " ++ env.workdir ++ "/openssl-" ++ version ++ ".tar.gz"]

/-- The tarball extraction command of the build pipeline. -/
def extractCmd (env : Env) (version : String) : List String :=
  ["tar", "xzf", env.workdir ++ "/openssl-" ++ version ++ ".tar.gz",
   "-C", env.workdir]

/-- The primary configure invocation: the generic `Configure` script on
aix/hp-ux/sunos, the `config` wrapper elsewhere, with the install
path and shared libraries. -/
def configureCmd (env : Env) (pfx : String) : List String :=
  if ["aix", "hp-ux", "sunos"].contains env.platform then
    ["./Configure", "--prefix=" ++ pfx, "shared"]
  else
    ["./config", "--prefix=" ++ pfx, "shared"]

/-- The fallback configure invocation with the explicit generic linux
target descriptor. -/
def altConfigureCmd (pfx : String) : List String :=
  ["./Configure", "linux-x86_64", "--prefix=" ++ pfx, "shared"]

/-- The build command: one job per processing unit (at least one),
preferring `gmake` when available. -/
def makeCmd (env : Env) : List String :=
  if env.which "gmake" then ["gmake", "-j", toString (max 1 env.cpuCount)]
  else ["make", "-j", toString (max 1 env.cpuCount)]

/-- Stages 4-7 of `side_install_from_source` (build, non-fatal test,
install, linker registration), entered only after a configure
invocation succeeded.  `steps` holds the CommandResults accumulated so
far; the returned trace covers only these stages. -/
def buildRest (env : Env) (version pfx : String)
    (steps : List CommandResult) : BuildResult × List Event :=
  let mk := runCmd env false (makeCmd env)
  if mk.1.exit ≠ 0 then
    ({status := "error", steps := steps ++ [mk.1], pfx? := none}, mk.2)
  else
    let tst := runCmd env false ["make", "test"]
    let inst := runCmd env false ["make", "install", "PREFIX=" ++ pfx]
    if inst.1.exit ≠ 0 then
      ({status := "error", steps := steps ++ [mk.1, tst.1, inst.1],
        pfx? := none},
       mk.2 ++ tst.2 ++ inst.2)
    else
      let regPair : List CommandResult × List Event :=
        if env.dirExists "/etc/ld.so.conf.d" then
          if env.writeLdConfOk then
            let wr : CommandResult :=
              {cmd := ["write /etc/ld.so.conf.d/openssl-" ++ version ++ ".conf"],
               exit := 0, stdout := ""}
            if env.which "ldconfig" then
              let lc := runCmd env true ["ldconfig"]
              ([wr, lc.1], lc.2)
            else ([wr], [])
          else ([{cmd := ["write-ldconf-failed"], exit := 1, stdout := ""}], [])
        else ([], [])
      ({status := "ok", steps := steps ++ [mk.1, tst.1, inst.1] ++ regPair.1,
        pfx? := some pfx},
       mk.2 ++ tst.2 ++ inst.2 ++ regPair.2)

/-- `side_install_from_source(version, prefix)`: preflight, acquire
(curl, then a urllib fallback), extract, configure (with one fallback
retry), then `buildRest`.  Every failure path returns the result built
so far; the reachable code sets the install path only on the success
path (the two statements after the final `return` are dead code). -/
def side_install_from_source (env : Env) (version : String)
    (pfxArg : Option String) : BuildResult × List Event :=
  let pfx := sideInstallPfx version pfxArg
  let tarball := "openssl-" ++ version ++ ".tar.gz"
  let missing := missingBuildTools env
  if missing.isEmpty = false then
    ({status := "error",
      steps := [{cmd := ["check-build-tools"], exit := 1, stdout := ""}],
      pfx? := none}, [])
  else
    let dl := runCmd env false (downloadCmd env version)
    if dl.1.exit ≠ 0 ∧ env.urlFetchOk = false then
      ({status := "error",
        steps := [dl.1, {cmd := ["download-failed"], exit := 1, stdout := ""}],
        pfx? := none}, dl.2)
    else
      let steps₀ :=
        if dl.1.exit ≠ 0 then
          [dl.1, {cmd := ["urllib-download"], exit := 0,
                  stdout := "downloaded to " ++ env.workdir ++ "/" ++ tarball}]
        else [dl.1]
      let ex := runCmd env false (extractCmd env version)
      if ex.1.exit ≠ 0 then
        ({status := "error", steps := steps₀ ++ [ex.1], pfx? := none},
         dl.2 ++ ex.2)
      else
        let cfg := runCmd env false (configureCmd env pfx)
        if cfg.1.exit ≠ 0 then
          let alt := runCmd env false (altConfigureCmd pfx)
          if alt.1.exit ≠ 0 then
            ({status := "error", steps := steps₀ ++ [ex.1, cfg.1, alt.1],
              pfx? := none},
             dl.2 ++ ex.2 ++ cfg.2 ++ alt.2)
          else
            let res := buildRest env version pfx (steps₀ ++ [ex.1, cfg.1, alt.1])
            (res.1, dl.2 ++ ex.2 ++ cfg.2 ++ alt.2 ++ res.2)
        else
          let res := buildRest env version pfx (steps₀ ++ [ex.1, cfg.1])
          (res.1, dl.2 ++ ex.2 ++ cfg.2 ++ res.2)

/-- The final verdict computation of `run_smoke_tests` over the
attempted checks. -/
def smokeStatusOf (checks : List SmokeCheck) : String :=
  if checks.all (fun c => c.ok) ∧ checks.isEmpty = false then "pass"
  else if checks.isEmpty = false then "fail" else "no-checks"

/-- The checks attempted by `run_smoke_tests`, with the commands they
execute: a version query for each candidate binary (the resolved PATH
entry and, if present on disk, the side-install location), then — when
a health target is supplied — a TLS handshake probe (requires
`openssl` on the PATH) and an HTTP health fetch (requires `curl`). -/
def smokeChecks (env : Env) : List SmokeCheck × List Event :=
  let bins :=
    (match env.whichPath "openssl" with
     | some p => [p]
     | none => []) ++
    (if env.pathExists ("/opt/openssl-" ++ env.targetVersion ++ "/bin/openssl")
     then ["/opt/openssl-" ++ env.targetVersion ++ "/bin/openssl"] else [])
  let verPairs := bins.map (fun binPath =>
    let rt := runCmd env false [binPath, "version", "-a"]
    (({name := "openssl-version-" ++ binPath,
       ok := strContains rt.1.stdout env.targetVersion} : SmokeCheck), rt.2))
  let checks₀ := verPairs.map Prod.fst
  let trace₀ := (verPairs.map Prod.snd).flatten
  let p₁ :=
    match env.healthUrl with
    | some host =>
      if env.which "openssl" then
        let rt := runCmd env false
          ["bash", "-lc",
           "echo | openssl s_client -connect " ++ host ++
             ":443 -servername " ++ host ++ " -brief"]
        (checks₀ ++ [{name := "openssl-s_client", ok := rt.1.exit = 0}],
         trace₀ ++ rt.2)
      else (checks₀, trace₀)
    | none => (checks₀, trace₀)
  match env.healthUrl with
  | some u =>
    if env.which "curl" then
      let rt := runCmd env false
        ["curl", "--fail", "--silent", "--show-error", u]
      (p₁.1 ++ [{name := "http-health", ok := rt.1.exit = 0}], p₁.2 ++ rt.2)
    else p₁
  | none => p₁

/-- `run_smoke_tests()`: the attempted checks and the verdict computed
from them. -/
def run_smoke_tests (env : Env) : (String × List SmokeCheck) × List Event :=
  let p := smokeChecks env
  ((smokeStatusOf p.1, p.1), p.2)

/-- The curated first-class package-manager set of the strategy rule. -/
def firstClassManagers : List String :=
  ["apt", "dnf", "yum", "apk", "zypper", "brew", "pkg"]

/-- The strategy rule of `decide_and_execute` (step 5): package-manager
when any first-class manager was detected, side-install otherwise. -/
def chooseStrategyType (pms : List String) : String :=
  if firstClassManagers.any (fun pm => pms.contains pm) then "package-manager"
  else "side-install"

/-- Step 7 of `decide_and_execute`: the confirmation gate and the
upgrade commands of the chosen strategy.  `none` models the aborted
early return after a declined confirmation; `some tr` is the trace of
the executed commands.  The dispatch on the first detected manager has
branches only for apt, dnf/yum, apk and brew; every other first
manager falls through to the source build.  The two `some []` arms are
unreachable: the strategy string is always one of the two literals,
and it is `package-manager` only when the detected list is
non-empty. -/
def executeStrategy (env : Env) (pms : List String) (strat : String) :
    Option (List Event) :=
  if strat = "package-manager" then
    match pms.head? with
    | none => some []
    | some pm =>
      if pm = "apt" then
        if confirm_upgrade env ["openssl", "libssl-dev"] then
          some ((runCmd env false ["apt", "update", "-y"]).2 ++
            (runCmd env false
              ["apt", "install", "--only-upgrade", "-y", "openssl",
               "libssl-dev"]).2)
        else none
      else if pm = "dnf" ∨ pm = "yum" then
        if confirm_upgrade env ["openssl"] then
          some ((runCmd env false [pm, "makecache"]).2 ++
            (runCmd env false [pm, "update", "-y", "openssl"]).2)
        else none
      else if pm = "apk" then
        if confirm_upgrade env ["openssl"] then
          some ((runCmd env false ["apk", "update"]).2 ++
            (runCmd env false ["apk", "add", "--upgrade", "openssl"]).2)
        else none
      else if pm = "brew" then
        let pkg := "openssl@" ++ ((pySplitOn env.targetVersion (Char.ofNat 46)).headD "")
        if confirm_upgrade env [pkg] then
          some ((runCmd env false ["brew", "update"]).2 ++
            (runCmd env false ["brew", "upgrade", pkg]).2)
        else none
      else
        if confirm_upgrade env
            ["OpenSSL " ++ env.targetVersion ++ " (source build)"] then
          some (side_install_from_source env env.targetVersion none).2
        else none
  else if strat = "side-install" then
    if confirm_upgrade env
        ["OpenSSL " ++ env.targetVersion ++ " (source build)"] then
      some (side_install_from_source env env.targetVersion none).2
    else none
  else some []

/-- The events produced by steps 1-3 of `decide_and_execute` (tool
detection, package-manager detection, and — when an app path is given
— linkage inspection followed by the dependency upgrade), i.e.
everything that runs before the backup snapshot. -/
def preBackupTrace (env : Env) : List Event :=
  (detect_openssl_cli env).2 ++
  (match env.appPath with
   | some app =>
     (detect_application_linking env app).2 ++
       upgrade_application_dependencies env app
   | none => [])

/-- `decide_and_execute()`: detection and dependency upgrade, backup,
strategy choice, the dry-run gate, strategy execution (aborting on a
declined confirmation), post-upgrade detection, smoke tests, and the
report. -/
def decide_and_execute (env : Env) : RunResult × List Event :=
  let t₂ := preBackupTrace env
  let t₃ := t₂ ++ [Event.backup]
  let pms := detect_package_managers env
  let strat := chooseStrategyType pms
  if env.dryRun then
    ({status := "dry-run", success := none}, t₃ ++ [Event.report])
  else
    match executeStrategy env pms strat with
    | none => ({status := "aborted", success := some false}, t₃)
    | some te =>
      let t₄ := t₃ ++ te ++ (detect_openssl_cli env).2 ++
        (match env.appPath with
         | some app => (detect_application_linking env app).2
         | none => [])
      let smoke := run_smoke_tests env
      ({status := "done", success := some (smoke.1.1 = "pass")},
       t₄ ++ smoke.2 ++ [Event.report])

/-!  Concrete host environments used to evaluate the embedding. -/

/-- A minimal linux host: nothing on the PATH, no files, every command
exits 0 with empty output, no CLI options beyond a target version. -/
def baseEnv : Env where
  platform := "linux"
  appPath := none
  targetVersion := "3.0.8"
  dryRun := false
  force := false
  healthUrl := none
  whichPath := fun _ => none
  run := fun _ => (0, "")
  pathExists := fun _ => false
  dirExists := fun _ => false
  glob := fun _ => []
  copyOk := fun _ => true
  urlFetchOk := false
  writeLdConfOk := true
  workdir := "/tmp/w"
  cpuCount := 1
  systemRoot := "C:\\Windows"
  confirmAnswer := fun _ => false

/-- A linux host invoked with a dry run, force, and an app path `/a`
that links `/l`, a library owned by package `z` according to dpkg. -/
def envDryApp : Env :=
  { baseEnv with
    dryRun := true
    force := true
    appPath := some "/a"
    whichPath := fun t =>
      if t = "ldd" ∨ t = "apt" ∨ t = "dpkg" then some ("/usr/bin/" ++ t)
      else none
    pathExists := fun p => p = "/a" ∨ p = "/l"
    run := fun c =>
      if c = ["ldd", "/a"] then (0, "z => /l (x)")
      else if c = ["dpkg", "-S", "/l"] then (0, "z: /l")
      else (0, "") }

/-- A linux host invoked with force and an app path `/b` that links
`/m`, a library owned by package `q` according to rpm; yum is the
detected package manager. -/
def envDeps : Env :=
  { baseEnv with
    force := true
    appPath := some "/b"
    whichPath := fun t =>
      if t = "ldd" ∨ t = "yum" ∨ t = "rpm" then some ("/usr/bin/" ++ t)
      else none
    pathExists := fun p => p = "/b" ∨ p = "/m"
    run := fun c =>
      if c = ["ldd", "/b"] then (0, "y => /m (x)")
      else if c = ["rpm", "-qf", "/m"] then (0, "q")
      else (0, "") }

/-- A linux host with build tools present whose configure invocations
(primary and fallback) both fail. -/
def envCfgFail : Env :=
  { baseEnv with
    whichPath := fun t =>
      if t = "make" ∨ t = "perl" ∨ t = "gcc" then some ("/usr/bin/" ++ t)
      else none
    run := fun c =>
      if c.headD "" = "./config" ∨ c.headD "" = "./Configure" then (1, "")
      else (0, "") }

/-- A linux host with both package databases installed where the
Debian lookup of `/x` fails while the RPM lookup would succeed. -/
def envDpkgMiss : Env :=
  { baseEnv with
    whichPath := fun t =>
      if t = "dpkg" ∨ t = "rpm" then some ("/usr/bin/" ++ t) else none
    run := fun c =>
      if c = ["dpkg", "-S", "/x"] then (1, "")
      else if c = ["rpm", "-qf", "/x"] then (0, "pkgx")
      else (0, "") }

/-- A linux host whose library glob matches two copies of the same
basename in different directories, with a tool binary present. -/
def envTwoLibs : Env :=
  { baseEnv with
    whichPath := fun t =>
      if t = "openssl" then some "/usr/bin/openssl" else none
    glob := fun pat =>
      if pat = "/usr/lib*/libssl*" then
        ["/usr/lib/libssl.so.3", "/usr/local/lib/libssl.so.3"]
      else [] }

/-- A linux host where zypper is the only detected package manager,
invoked with force. -/
def envZypper : Env :=
  { baseEnv with
    force := true
    whichPath := fun t =>
      if t = "zypper" then some "/usr/bin/zypper" else none }

/-!  Claims. -/

/-- Claim C3: strategy selection is a deterministic function of the
detected package-manager set: the chosen kind is `package-manager`
exactly when the set contains at least one first-class manager (apt,
dnf, yum, apk, zypper, brew, pkg) and `side-install` exactly when it
contains none of them. -/
theorem claim_C3 (pms : List String) :
    (chooseStrategyType pms = "package-manager" ↔
      ∃ pm ∈ firstClassManagers, pm ∈ pms) ∧
    (chooseStrategyType pms = "side-install" ↔
      ¬∃ pm ∈ firstClassManagers, pm ∈ pms) := by
  unfold chooseStrategyType
  by_cases h : ∃ pm ∈ firstClassManagers, pm ∈ pms
  · have hb : firstClassManagers.any (fun pm => pms.contains pm) = true := by
      rw [List.any_eq_true]
      obtain ⟨pm, h1, h2⟩ := h
      exact ⟨pm, h1, List.elem_iff.mpr h2⟩
    rw [if_pos hb]
    exact ⟨⟨fun _ => h, fun _ => rfl⟩,
      ⟨fun hc => absurd hc (by decide), fun hc => absurd h hc⟩⟩
  · have hb : ¬firstClassManagers.any (fun pm => pms.contains pm) = true := by
      rw [List.any_eq_true]
      rintro ⟨pm, h1, h2⟩
      exact h ⟨pm, h1, List.elem_iff.mp h2⟩
    rw [if_neg hb]
    exact ⟨⟨fun hc => absurd hc (by decide), fun hc => absurd hc h⟩,
      ⟨fun _ => h, fun _ => rfl⟩⟩

/-- The verdict of `run_smoke_tests` as a function of the attempted
checks: `pass` iff some check was attempted and all passed, `fail` iff
some was attempted and one failed, `no-checks` iff none was
attempted. -/
theorem smokeStatusOf_spec (checks : List SmokeCheck) :
    (smokeStatusOf checks = "no-checks" ↔ checks = []) ∧
    (smokeStatusOf checks = "pass" ↔
      checks ≠ [] ∧ ∀ c ∈ checks, c.ok = true) ∧
    (smokeStatusOf checks = "fail" ↔
      checks ≠ [] ∧ ∃ c ∈ checks, c.ok = false) := by
  unfold smokeStatusOf
  by_cases he : checks = []
  · subst he
    simp
  · have hne : checks.isEmpty = false := by
      simpa [List.isEmpty_iff] using he
    by_cases ha : checks.all (fun c => c.ok) = true
    · rw [if_pos ⟨ha, by simp [hne]⟩]
      rw [List.all_eq_true] at ha
      refine ⟨⟨fun hc => absurd hc (by decide), fun hc => absurd hc he⟩,
        ⟨fun _ => ⟨he, ha⟩, fun _ => rfl⟩,
        ⟨fun hc => absurd hc (by decide), ?_⟩⟩
      rintro ⟨-, c, hc, hcf⟩
      rw [ha c hc] at hcf
      cases hcf
    · rw [if_neg (by simp [ha]), if_pos (by simp [hne])]
      rw [List.all_eq_true] at ha
      push_neg at ha
      obtain ⟨c, hc, hcf⟩ := ha
      refine ⟨⟨fun hc => absurd hc (by decide), fun hc => absurd hc he⟩,
        ⟨fun hc => absurd hc (by decide), ?_⟩,
        ⟨fun _ => ⟨he, c, hc, by simpa using hcf⟩, fun _ => rfl⟩⟩
      rintro ⟨-, hall⟩
      exact absurd (hall c hc) hcf

/-- Claim C5: for every call to the verification engine, the verdict
is `no-checks` exactly when the list of attempted checks is empty,
`pass` exactly when at least one check was attempted and every
attempted check passed, and `fail` exactly otherwise (some check was
attempted and at least one failed). -/
theorem claim_C5 (env : Env) :
    ((run_smoke_tests env).1.1 = "no-checks" ↔
      (run_smoke_tests env).1.2 = []) ∧
    ((run_smoke_tests env).1.1 = "pass" ↔
      (run_smoke_tests env).1.2 ≠ [] ∧
        ∀ c ∈ (run_smoke_tests env).1.2, c.ok = true) ∧
    ((run_smoke_tests env).1.1 = "fail" ↔
      (run_smoke_tests env).1.2 ≠ [] ∧
        ∃ c ∈ (run_smoke_tests env).1.2, c.ok = false) :=
  smokeStatusOf_spec (smokeChecks env).1

/-- Claim C4 counterexample: on a host with no build tools the
pipeline fails at preflight and the returned record carries no install
path, refuting that the install path is recorded on every failure
outcome. -/
theorem claim_C4_counterexample :
    (side_install_from_source baseEnv "3.0.8" none).1.status = "error" ∧
    (side_install_from_source baseEnv "3.0.8" none).1.pfx? = none := by
  decide

/-- Stages 4-8 of the pipeline record the install path exactly on the
success outcome. -/
theorem buildRest_spec (env : Env) (version pfx : String)
    (steps : List CommandResult) :
    ((buildRest env version pfx steps).1.status = "ok" ∧
      (buildRest env version pfx steps).1.pfx? = some pfx) ∨
    ((buildRest env version pfx steps).1.status = "error" ∧
      (buildRest env version pfx steps).1.pfx? = none) := by
  unfold buildRest
  dsimp only
  split_ifs <;> first
    | exact Or.inr ⟨rfl, rfl⟩
    | exact Or.inl ⟨rfl, rfl⟩

/-- Claim C4 (amended): the source build pipeline records the install
path exactly on the success outcome; every failure outcome (missing
build tools, download failure, extract failure, configure failure,
build failure, install failure) returns with status `error` and no
install-path record (the two statements after the success return are
dead code). -/
theorem claim_C4 (env : Env) (version : String) (pfxArg : Option String) :
    ((side_install_from_source env version pfxArg).1.status = "ok" ∧
      (side_install_from_source env version pfxArg).1.pfx? =
        some (sideInstallPfx version pfxArg)) ∨
    ((side_install_from_source env version pfxArg).1.status = "error" ∧
      (side_install_from_source env version pfxArg).1.pfx? = none) := by
  unfold side_install_from_source
  dsimp only
  split_ifs <;> first
    | exact Or.inr ⟨rfl, rfl⟩
    | exact buildRest_spec env version (sideInstallPfx version pfxArg) _

/-- A non-sudo invocation executes the command verbatim. -/
theorem runCmd_false_def (env : Env) (c : List String) :
    runCmd env false c =
      ({cmd := c, exit := (env.run c).1, stdout := (env.run c).2},
       [Event.cmd c]) := rfl

/-- The primary configure invocation differs from the fallback one on
every platform. -/
theorem configureCmd_ne_alt (env : Env) (pfx : String) :
    configureCmd env pfx ≠ altConfigureCmd pfx := by
  unfold configureCmd altConfigureCmd
  split_ifs <;> simp

/-- The build command differs from the fallback configure command. -/
theorem makeCmd_ne_alt (env : Env) (pfx : String) :
    makeCmd env ≠ altConfigureCmd pfx := by
  unfold makeCmd altConfigureCmd
  split_ifs <;> simp

/-- The build/test/install/register stages never invoke the fallback
configure command. -/
theorem buildRest_no_alt (env : Env) (version pfx : String)
    (steps : List CommandResult) :
    Event.cmd (altConfigureCmd pfx) ∉ (buildRest env version pfx steps).2 := by
  unfold buildRest
  dsimp only
  split_ifs <;>
    simp [runCmd, altConfigureCmd, makeCmd, List.mem_append] <;>
    split_ifs <;> simp

/-- Claim C6: in every execution of the source build pipeline that
reaches the configure stage (preflight passed, a download mechanism
succeeded, extraction succeeded) and whose primary configure
invocation records a non-zero exit code, the fallback configure
invocation is attempted exactly once; and when the fallback's exit
code is also non-zero, the pipeline returns having executed only the
acquisition, extraction and the two configure commands — no build,
test, or install command. -/
theorem claim_C6 (env : Env) (version : String) (pfxArg : Option String)
    (htools : (missingBuildTools env).isEmpty = true)
    (hdl : (runCmd env false (downloadCmd env version)).1.exit = 0 ∨
      env.urlFetchOk = true)
    (hex : (runCmd env false (extractCmd env version)).1.exit = 0)
    (hcfg : (runCmd env false
      (configureCmd env (sideInstallPfx version pfxArg))).1.exit ≠ 0) :
    ((side_install_from_source env version pfxArg).2.count
        (Event.cmd (altConfigureCmd (sideInstallPfx version pfxArg))) = 1) ∧
    ((runCmd env false
        (altConfigureCmd (sideInstallPfx version pfxArg))).1.exit ≠ 0 →
      ∀ c, Event.cmd c ∈ (side_install_from_source env version pfxArg).2 →
        c = downloadCmd env version ∨ c = extractCmd env version ∨
        c = configureCmd env (sideInstallPfx version pfxArg) ∨
        c = altConfigureCmd (sideInstallPfx version pfxArg)) := by
  unfold side_install_from_source
  dsimp only
  rw [if_neg (by simp [htools])]
  rw [if_neg (by
    rintro ⟨h1, h2⟩
    rcases hdl with h | h
    · exact h1 h
    · rw [h] at h2; cases h2)]
  rw [if_neg (by simpa using hex)]
  rw [if_pos hcfg]
  by_cases halt : (runCmd env false
      (altConfigureCmd (sideInstallPfx version pfxArg))).1.exit = 0
  · rw [if_neg (by simpa using halt)]
    constructor
    · simp only [runCmd_false_def, List.count_append]
      rw [List.count_eq_zero.mpr
        (buildRest_no_alt env version (sideInstallPfx version pfxArg) _)]
      have h1 : downloadCmd env version ≠
          altConfigureCmd (sideInstallPfx version pfxArg) := by
        simp [downloadCmd, altConfigureCmd]
      have h2 : extractCmd env version ≠
          altConfigureCmd (sideInstallPfx version pfxArg) := by
        simp [extractCmd, altConfigureCmd]
      have h3 := configureCmd_ne_alt env (sideInstallPfx version pfxArg)
      simp [List.count_cons, List.count_nil, h1, h2, h3]
    · intro hne
      exact absurd halt hne
  · rw [if_pos (by simpa using halt)]
    constructor
    · simp only [runCmd_false_def, List.count_append]
      have h1 : downloadCmd env version ≠
          altConfigureCmd (sideInstallPfx version pfxArg) := by
        simp [downloadCmd, altConfigureCmd]
      have h2 : extractCmd env version ≠
          altConfigureCmd (sideInstallPfx version pfxArg) := by
        simp [extractCmd, altConfigureCmd]
      have h3 := configureCmd_ne_alt env (sideInstallPfx version pfxArg)
      simp [List.count_cons, List.count_nil, h1, h2, h3]
    · intro _ c hc
      simp only [runCmd_false_def, List.mem_append, List.mem_singleton] at hc
      rcases hc with ((hc | hc) | hc) | hc <;>
        simp only [Event.cmd.injEq] at hc <;> tauto

/-- Claim C6 witness: on the host whose configure invocations fail,
the fallback is attempted exactly once. -/
theorem claim_C6_witness :
    (missingBuildTools envCfgFail).isEmpty = true ∧
    (side_install_from_source envCfgFail "3.0.8" none).2.count
      (Event.cmd (altConfigureCmd "/opt/openssl-3.0.8")) = 1 :=
  ⟨by decide,
   (claim_C6 envCfgFail "3.0.8" none (by decide) (Or.inl (by decide))
     (by decide) (by decide)).1⟩

/-- Claim C7 counterexample: on a linux host with both package
databases installed, the lookup of `/x` through the Debian database
fails while the RPM lookup would succeed (exit 0), yet owner
resolution returns absent and the RPM lookup is never attempted —
refuting that the RPM database is used as the alternative whenever the
Debian lookup fails. -/
theorem claim_C7_counterexample :
    (envDpkgMiss.run ["rpm", "-qf", "/x"]).1 = 0 ∧
    (resolve_package_owner envDpkgMiss "/x").1 = none ∧
    Event.cmd ["rpm", "-qf", "/x"] ∉ (resolve_package_owner envDpkgMiss "/x").2 := by
  decide

/-- Claim C7 (amended): on the linux branch of owner resolution the
Debian database is queried exactly when the dpkg tool is present, and
the RPM database is queried only when dpkg is absent and rpm present;
a present-but-failing Debian lookup therefore returns absent without
ever attempting the RPM lookup, and with neither tool present nothing
is queried and the result is absent. -/
theorem claim_C7 (env : Env) (path : String)
    (hplat : env.platform = "linux") :
    (env.which "dpkg" = true →
      (resolve_package_owner env path).2 = [Event.cmd ["dpkg", "-S", path]]) ∧
    (env.which "dpkg" = false → env.which "rpm" = true →
      (resolve_package_owner env path).2 = [Event.cmd ["rpm", "-qf", path]]) ∧
    (env.which "dpkg" = false → env.which "rpm" = false →
      (resolve_package_owner env path).1 = none ∧
      (resolve_package_owner env path).2 = []) := by
  unfold resolve_package_owner
  rw [hplat]
  refine ⟨fun hdpkg => ?_, fun hdpkg hrpm => ?_, fun hdpkg hrpm => ?_⟩
  · rw [if_pos rfl, if_pos hdpkg]
    dsimp only
    split_ifs <;> rfl
  · rw [if_pos rfl, if_neg (by simp [hdpkg]), if_pos hrpm]
    dsimp only
    split_ifs <;> rfl
  · rw [if_pos rfl, if_neg (by simp [hdpkg]), if_neg (by simp [hrpm])]
    exact ⟨rfl, rfl⟩

/-- Claim C7 witness: on the dpkg-present host only the Debian lookup
is executed. -/
theorem claim_C7_witness :
    envDpkgMiss.platform = "linux" ∧
    (resolve_package_owner envDpkgMiss "/x").2 =
      [Event.cmd ["dpkg", "-S", "/x"]] :=
  ⟨rfl, (claim_C7 envDpkgMiss "/x" rfl).1 (by decide)⟩

/-- A successful package-database lookup, branch by branch as the
source checks it: on linux a Debian lookup with exit 0 and a colon in
its output (when dpkg is present) or an RPM lookup with exit 0 (when
dpkg is absent and rpm present); on aix an `lslpp -w` line containing
the path with at least two fields; on sunos an IPS search with exit 0
and non-blank output (when pkg is present).  Other platforms have no
database lookup. -/
def databaseHit (env : Env) (p : String) : Prop :=
  (env.platform = "linux" ∧
    ((env.which "dpkg" = true ∧ (env.run ["dpkg", "-S", p]).1 = 0 ∧
        strContains (env.run ["dpkg", "-S", p]).2 ":" = true) ∨
     (env.which "dpkg" = false ∧ env.which "rpm" = true ∧
        (env.run ["rpm", "-qf", p]).1 = 0))) ∨
  (env.platform = "aix" ∧
    ∃ line ∈ pySplitLines (env.run ["lslpp", "-w", p]).2,
      strContains line p = true ∧ 2 ≤ (pyWhitespaceSplit line).length) ∨
  (env.platform = "sunos" ∧ env.which "pkg" = true ∧
    (env.run ["pkg", "search", "-l", "-H", "-o", "pkg.name", p]).1 = 0 ∧
    pyStrip (env.run ["pkg", "search", "-l", "-H", "-o", "pkg.name", p]).2 ≠ "")

/-- A successful path heuristic, as the source checks it: the darwin
Cellar-segment heuristic or the windows chocolatey-lib-segment
heuristic. -/
def heuristicMatch (env : Env) (p : String) : Prop :=
  (env.platform = "darwin" ∧ strContains p "Cellar" = true ∧
    (pySplitOn p (Char.ofNat 47)).contains "Cellar" = true ∧
    (pySplitOn p (Char.ofNat 47)).indexOf "Cellar" + 1 <
      (pySplitOn p (Char.ofNat 47)).length) ∨
  (env.platform = "windows" ∧
    strContains (pyToLower p) "chocolatey" = true ∧
    strContains (pyToLower p) "lib" = true ∧
    (pySplitOn (pyReplace p (Char.ofNat 92) "/") (Char.ofNat 47)).contains
        "lib" = true ∧
    (pySplitOn (pyReplace p (Char.ofNat 92) "/") (Char.ofNat 47)).indexOf
        "lib" + 1 <
      (pySplitOn (pyReplace p (Char.ofNat 92) "/") (Char.ofNat 47)).length)

instance (env : Env) (p : String) : Decidable (databaseHit env p) := by
  unfold databaseHit
  infer_instance

instance (env : Env) (p : String) : Decidable (heuristicMatch env p) := by
  unfold heuristicMatch
  infer_instance

/-- Claim C8: owner resolution is total (a function of the host
oracles — `run_cmd` itself never raises) and returns absent whenever
no database lookup hits and no path heuristic matches, on every
platform branch (linux, darwin, aix, sunos, windows, and any other
value) and for every input path — including when the queried database
tool is missing from the host. -/
theorem claim_C8 (env : Env) (p : String)
    (hdb : ¬databaseHit env p) (hheur : ¬heuristicMatch env p) :
    (resolve_package_owner env p).1 = none := by
  unfold resolve_package_owner
  unfold databaseHit at hdb
  unfold heuristicMatch at hheur
  push_neg at hdb hheur
  by_cases hlin : env.platform = "linux"
  · rw [if_pos hlin]
    obtain ⟨hdb1, -, -⟩ := hdb
    obtain ⟨hA, hB⟩ := hdb1 hlin
    by_cases hdpkg : env.which "dpkg"
    · rw [if_pos hdpkg]
      dsimp only
      rw [if_neg]
      rintro ⟨h0, h1⟩
      exact hA hdpkg (by simpa [runCmd_false_def] using h0)
        (by simpa [runCmd_false_def] using h1)
    · rw [if_neg hdpkg]
      have hdpkg' : env.which "dpkg" = false := by simpa using hdpkg
      by_cases hrpm : env.which "rpm"
      · rw [if_pos hrpm]
        dsimp only
        rw [if_neg]
        intro h0
        exact hB hdpkg' (by simpa using hrpm)
          (by simpa [runCmd_false_def] using h0)
      · rw [if_neg hrpm]
  · rw [if_neg hlin]
    by_cases hdar : env.platform = "darwin"
    · rw [if_pos hdar]
      obtain ⟨hh, -⟩ := hheur
      replace hh := hh hdar
      dsimp only
      split_ifs with h1 h2 h3
      · exact absurd (hh h1 h2) (by simpa using h3)
      · rfl
      · rfl
      · rfl
    · rw [if_neg hdar]
      by_cases haix : env.platform = "aix"
      · rw [if_pos haix]
        obtain ⟨-, hdb2, -⟩ := hdb
        replace hdb2 := hdb2 haix
        dsimp only
        rw [List.findSome?_eq_none_iff.mpr]
        intro line hline
        unfold aixOwnerOfLine
        by_cases hc : strContains line p = true
        · rw [if_pos hc]
          have hlen := hdb2 line (by simpa [runCmd_false_def] using hline) hc
          match hw : pyWhitespaceSplit line with
          | [] => rfl
          | [x] => rfl
          | x :: y :: rest =>
            rw [hw] at hlen
            exact absurd hlen (by simp only [List.length_cons]; omega)
        · rw [if_neg hc]
      · rw [if_neg haix]
        by_cases hsun : env.platform = "sunos"
        · rw [if_pos hsun]
          obtain ⟨-, -, hdb3⟩ := hdb
          replace hdb3 := hdb3 hsun
          by_cases hpkg : env.which "pkg"
          · rw [if_pos hpkg]
            dsimp only
            rw [if_neg]
            rintro ⟨h0, h1⟩
            exact h1 (hdb3 hpkg (by simpa [runCmd_false_def] using h0))
          · rw [if_neg hpkg]
            split_ifs <;> rfl
        · rw [if_neg hsun]
          by_cases hwin : env.platform = "windows"
          · rw [if_pos hwin]
            obtain ⟨-, hh2⟩ := hheur
            replace hh2 := hh2 hwin
            dsimp only
            split_ifs with h1 h2 h3
            · exact absurd (hh2 h1.1 h1.2 h2) (by simpa using h3)
            · rfl
            · rfl
            · rfl
          · rw [if_neg hwin]

/-- Claim C8 witness: on the host whose Debian lookup of `/x` fails,
no database hit and no heuristic match occur, and resolution returns
absent. -/
theorem claim_C8_witness :
    ¬databaseHit envDpkgMiss "/x" ∧ ¬heuristicMatch envDpkgMiss "/x" ∧
    (resolve_package_owner envDpkgMiss "/x").1 = none :=
  ⟨by decide, by decide, claim_C8 envDpkgMiss "/x" (by decide) (by decide)⟩

/-- Adding an already-present name changes nothing. -/
theorem copyIfAbsent_of_mem {name : String} {files : List String}
    (h : name ∈ files) : copyIfAbsent name files = files := by
  unfold copyIfAbsent
  rw [if_pos (List.elem_iff.mpr h)]

/-- The added name is present afterwards. -/
theorem mem_copyIfAbsent_self (name : String) (files : List String) :
    name ∈ copyIfAbsent name files := by
  unfold copyIfAbsent
  split_ifs with h
  · exact List.elem_iff.mp h
  · simp

/-- Present names stay present. -/
theorem mem_copyIfAbsent {a name : String} {files : List String}
    (h : a ∈ files) : a ∈ copyIfAbsent name files := by
  unfold copyIfAbsent
  split_ifs <;> simp [h]

/-- Copy-if-absent preserves freedom from duplicates. -/
theorem copyIfAbsent_nodup {name : String} {files : List String}
    (h : files.Nodup) : (copyIfAbsent name files).Nodup := by
  unfold copyIfAbsent
  split_ifs with hc
  · exact h
  · simp only [List.nodup_append, List.nodup_cons, List.not_mem_nil,
      List.nodup_nil, List.disjoint_singleton]
    exact ⟨h, by simp, fun hm => absurd (List.elem_iff.mpr hm) hc⟩

/-- Names present before a library-copy pass are present after it. -/
theorem mem_foldl_backupLibStep {env : Env} {a : String}
    (srcs : List String) (files : List String) (h : a ∈ files) :
    a ∈ srcs.foldl (backupLibStep env) files := by
  induction srcs generalizing files with
  | nil => exact h
  | cons p ps ih =>
    apply ih
    unfold backupLibStep
    dsimp only
    split_ifs <;> simp [h]

/-- A library-copy pass preserves freedom from duplicates. -/
theorem foldl_backupLibStep_nodup {env : Env} (srcs : List String)
    (files : List String) (h : files.Nodup) :
    (srcs.foldl (backupLibStep env) files).Nodup := by
  induction srcs generalizing files with
  | nil => exact h
  | cons p ps ih =>
    apply ih
    unfold backupLibStep
    dsimp only
    split_ifs with hc hk
    · exact h
    · simp only [List.nodup_append, List.nodup_cons, List.not_mem_nil,
        List.nodup_nil, List.disjoint_singleton]
      exact ⟨h, by simp, fun hm => absurd (List.elem_iff.mpr hm) hc⟩
    · exact h

/-- After a library-copy pass, every source whose copy succeeds has
its derived destination name present. -/
theorem dest_mem_foldl_backupLibStep {env : Env} (srcs : List String)
    (files : List String) :
    ∀ p ∈ srcs, env.copyOk p = true →
      ("lib_" ++ baseName p) ∈ srcs.foldl (backupLibStep env) files := by
  induction srcs generalizing files with
  | nil => intro p hp; cases hp
  | cons q qs ih =>
    intro p hp hok
    rcases List.mem_cons.mp hp with rfl | hp
    · rw [List.foldl_cons]
      apply mem_foldl_backupLibStep
      unfold backupLibStep
      dsimp only
      split_ifs with hc
      · exact List.elem_iff.mp hc
      · simp
    · exact ih _ p hp hok

/-- A library-copy pass over sources whose destinations are all
already present (or whose copies fail) is the identity. -/
theorem foldl_backupLibStep_id {env : Env} (srcs : List String)
    (files : List String)
    (h : ∀ p ∈ srcs, env.copyOk p = true → ("lib_" ++ baseName p) ∈ files) :
    srcs.foldl (backupLibStep env) files = files := by
  induction srcs with
  | nil => rfl
  | cons q qs ih =>
    have hstep : backupLibStep env files q = files := by
      unfold backupLibStep
      dsimp only
      split_ifs with hc hk
      · rfl
      · exact absurd (List.elem_iff.mpr (h q (by simp) hk)) hc
      · rfl
    calc (q :: qs).foldl (backupLibStep env) files
        = qs.foldl (backupLibStep env) (backupLibStep env files q) := rfl
      _ = qs.foldl (backupLibStep env) files := by rw [hstep]
      _ = files := ih (fun p hp hok => h p (by simp [hp]) hok)

/-- The snapshot as an explicit fold over the glob matches, seeded
with the tool-binary copies. -/
theorem prepare_backup_def (env : Env) (files : List String) :
    prepare_backup env files =
      (((backupLibGlobs env).map env.glob).flatten).foldl (backupLibStep env)
        (if env.which "openssl" then
          copyIfAbsent "openssl_binary.sha256"
            (copyIfAbsent "openssl_binary" files)
        else files) := rfl

/-- Claim C9: running the backup snapshot twice within the same run
directory never produces two distinct backup entries for the same
derived destination name: starting from a duplicate-free directory
listing, one snapshot leaves it duplicate-free (a library copy is
skipped when a destination of the same derived name already exists,
and the tool-binary copy reuses the fixed names `openssl_binary` and
`openssl_binary.sha256`), and a second snapshot changes nothing. -/
theorem claim_C9 (env : Env) (files : List String) (h : files.Nodup) :
    (prepare_backup env files).Nodup ∧
    prepare_backup env (prepare_backup env files) = prepare_backup env files := by
  constructor
  · rw [prepare_backup_def]
    apply foldl_backupLibStep_nodup
    split_ifs with hw
    · exact copyIfAbsent_nodup (copyIfAbsent_nodup h)
    · exact h
  · have h1 : (if env.which "openssl" = true then
        copyIfAbsent "openssl_binary.sha256"
          (copyIfAbsent "openssl_binary" (prepare_backup env files))
      else prepare_backup env files) = prepare_backup env files := by
      split_ifs with hw
      · have hbin : ("openssl_binary" : String) ∈ prepare_backup env files := by
          rw [prepare_backup_def env files]
          apply mem_foldl_backupLibStep
          rw [if_pos hw]
          exact mem_copyIfAbsent (mem_copyIfAbsent_self _ _)
        have hsha : ("openssl_binary.sha256" : String) ∈
            prepare_backup env files := by
          rw [prepare_backup_def env files]
          apply mem_foldl_backupLibStep
          rw [if_pos hw]
          exact mem_copyIfAbsent_self _ _
        rw [copyIfAbsent_of_mem hbin, copyIfAbsent_of_mem hsha]
      · rfl
    rw [prepare_backup_def env (prepare_backup env files), h1,
      foldl_backupLibStep_id]
    intro p hp hok
    rw [prepare_backup_def env files]
    exact dest_mem_foldl_backupLibStep _ _ p hp hok

/-- Claim C9 witness: on the host whose glob matches two library files
of the same basename, one snapshot of an empty directory is
duplicate-free and a second snapshot is a no-op. -/
theorem claim_C9_witness :
    ([] : List String).Nodup ∧
    (prepare_backup envTwoLibs []).Nodup ∧
    prepare_backup envTwoLibs (prepare_backup envTwoLibs []) =
      prepare_backup envTwoLibs [] :=
  ⟨by decide, (claim_C9 envTwoLibs [] (by decide)).1,
   (claim_C9 envTwoLibs [] (by decide)).2⟩

/-- The trace of one invocation is the single executed command. -/
theorem runCmd_trace (env : Env) (u : Bool) (c : List String) :
    (runCmd env u c).2 =
      [Event.cmd (if u ∧ env.platform ≠ "windows" then "sudo" :: c else c)] :=
  rfl

/-- Tool detection emits only command events. -/
theorem detect_openssl_cli_cmds (env : Env) :
    ∀ e ∈ (detect_openssl_cli env).2, ∃ c, e = Event.cmd c := by
  intro e he
  unfold detect_openssl_cli at he
  split_ifs at he
  · rw [runCmd_trace] at he
    simp only [List.mem_singleton] at he
    exact ⟨_, he⟩
  · exact absurd he (List.not_mem_nil _)

/-- Linkage inspection emits only command events. -/
theorem detect_application_linking_cmds (env : Env) (app : String) :
    ∀ e ∈ (detect_application_linking env app).2, ∃ c, e = Event.cmd c := by
  intro e he
  unfold detect_application_linking at he
  dsimp only at he
  split_ifs at he <;>
    first
      | exact absurd he (List.not_mem_nil _)
      | · rw [runCmd_trace] at he
          simp only [List.mem_singleton] at he
          exact ⟨_, he⟩

/-- Owner resolution emits only command events. -/
theorem resolve_package_owner_cmds (env : Env) (lib : String) :
    ∀ e ∈ (resolve_package_owner env lib).2, ∃ c, e = Event.cmd c := by
  intro e he
  unfold resolve_package_owner at he
  dsimp only at he
  split_ifs at he <;>
    first
      | exact absurd he (List.not_mem_nil _)
      | · rw [runCmd_trace] at he
          simp only [List.mem_singleton] at he
          exact ⟨_, he⟩

/-- Library discovery emits only command events. -/
theorem dependencyLibs_cmds (env : Env) (app : String) :
    ∀ e ∈ (dependencyLibs env app).2, ∃ c, e = Event.cmd c := by
  intro e he
  unfold dependencyLibs at he
  dsimp only at he
  split_ifs at he <;>
    first
      | exact absurd he (List.not_mem_nil _)
      | · rw [runCmd_trace] at he
          simp only [List.mem_singleton] at he
          exact ⟨_, he⟩

/-- The dependency upgrade command phase emits only command events. -/
theorem dependencyUpgradeCmds_cmds (env : Env) (pkgs : List String) :
    ∀ e ∈ dependencyUpgradeCmds env pkgs, ∃ c, e = Event.cmd c := by
  intro e he
  unfold dependencyUpgradeCmds at he
  split_ifs at he <;>
    first
      | exact absurd he (List.not_mem_nil _)
      | · rw [runCmd_trace] at he
          simp only [List.mem_singleton] at he
          exact ⟨_, he⟩

/-- The dependency coordinator emits only command events. -/
theorem upgrade_application_dependencies_cmds (env : Env) (app : String) :
    ∀ e ∈ upgrade_application_dependencies env app, ∃ c, e = Event.cmd c := by
  have hph : ∀ e ∈ (dependencyLibs env app).2 ++
      ((((dependencyLibs env app).1.map (resolve_package_owner env)).map
        Prod.snd).flatten), ∃ c, e = Event.cmd c := by
    intro e he
    rcases List.mem_append.mp he with h | h
    · exact dependencyLibs_cmds env app e h
    · rw [List.mem_flatten] at h
      obtain ⟨l, hl, hel⟩ := h
      rw [List.mem_map] at hl
      obtain ⟨pr, hpr, rfl⟩ := hl
      rw [List.mem_map] at hpr
      obtain ⟨lib, hlib, rfl⟩ := hpr
      exact resolve_package_owner_cmds env lib e hel
  intro e he
  unfold upgrade_application_dependencies at he
  dsimp only at he
  split_ifs at he
  · exact hph e he
  · rcases List.mem_append.mp he with h | h
    · exact hph e h
    · exact dependencyUpgradeCmds_cmds env _ e h
  · exact hph e he

/-- Everything that runs before the backup snapshot is a command
event (detection queries and the dependency phase). -/
theorem preBackupTrace_cmds (env : Env) :
    ∀ e ∈ preBackupTrace env, ∃ c, e = Event.cmd c := by
  intro e he
  unfold preBackupTrace at he
  rcases List.mem_append.mp he with h | h
  · exact detect_openssl_cli_cmds env e h
  · cases hap : env.appPath with
    | none => rw [hap] at h; exact absurd h (List.not_mem_nil _)
    | some app =>
      rw [hap] at h
      rcases List.mem_append.mp h with h2 | h2
      · exact detect_application_linking_cmds env app e h2
      · exact upgrade_application_dependencies_cmds env app e h2

/-- The orchestration trace always decomposes as the pre-backup phase,
the backup marker, and a remainder. -/
theorem decide_trace_shape (env : Env) :
    ∃ rest, (decide_and_execute env).2 =
      preBackupTrace env ++ Event.backup :: rest := by
  unfold decide_and_execute
  dsimp only
  split_ifs with hd
  · exact ⟨[Event.report], by simp⟩
  · rcases hes : executeStrategy env (detect_package_managers env)
        (chooseStrategyType (detect_package_managers env)) with _ | te
    · exact ⟨[], by simp⟩
    · dsimp only
      exact ⟨te ++ (detect_openssl_cli env).2 ++
        (match env.appPath with
         | some app => (detect_application_linking env app).2
         | none => []) ++ (run_smoke_tests env).2 ++ [Event.report],
        by simp⟩

/-- Claim C1 counterexample: on the linux host with an app path whose
dependencies resolve to package `q`, the dependency-upgrade command
(`sudo yum update -y q`) is executed strictly before the backup
snapshot completes — refuting that the backup precedes every mutating
external command. -/
theorem claim_C1_counterexample :
    Event.backup ∈ (decide_and_execute envDeps).2 ∧
    Event.cmd ["sudo", "yum", "update", "-y", "q"] ∈
      ((decide_and_execute envDeps).2.takeWhile
        (fun e => e ≠ Event.backup)) := by
  decide

/-- Claim C1 (amended): in every run the backup snapshot completes
before the strategy-execution commands (package-manager upgrade or
source build/install): the trace is exactly the detection queries and
— when an app path is supplied — the dependency-upgrade phase,
followed by the backup marker, followed by everything else; the
events before the backup are command events of those two phases, so
every strategy-execution command comes after the backup, while the
dependency-upgrade commands come before it. -/
theorem claim_C1 (env : Env) :
    ∃ rest, (decide_and_execute env).2 =
      preBackupTrace env ++ Event.backup :: rest ∧
      ∀ e ∈ preBackupTrace env, ∃ c, e = Event.cmd c := by
  obtain ⟨rest, h⟩ := decide_trace_shape env
  exact ⟨rest, h, preBackupTrace_cmds env⟩

/-- Claim C2 at its failing input: a dry run with an app path on the
linux host still executes the dependency-upgrade command
(`sudo apt install --only-upgrade -y z`), even though the terminal
status is `dry-run` and the report is generated. -/
theorem claim_C2_failing :
    (decide_and_execute envDryApp).1.status = "dry-run" ∧
    Event.report ∈ (decide_and_execute envDryApp).2 ∧
    Event.cmd ["sudo", "apt", "install", "--only-upgrade", "-y", "z"] ∈
      (decide_and_execute envDryApp).2 := by
  decide

/-- Claim C10: whenever the detected package-manager set contains
zypper or pkg but none of apt, dnf, yum, apk, brew, the chosen
strategy kind is `package-manager`, yet after a positive confirmation
the executed upgrade action is the source side-install pipeline (the
dispatch has no zypper or pkg branch and falls through to the source
build), and the run completes with status `done`. -/
theorem claim_C10 (env : Env)
    (hzp : "zypper" ∈ detect_package_managers env ∨
      "pkg" ∈ detect_package_managers env)
    (h5 : "apt" ∉ detect_package_managers env ∧
      "dnf" ∉ detect_package_managers env ∧
      "yum" ∉ detect_package_managers env ∧
      "apk" ∉ detect_package_managers env ∧
      "brew" ∉ detect_package_managers env)
    (hdry : env.dryRun = false)
    (hconf : confirm_upgrade env
      ["OpenSSL " ++ env.targetVersion ++ " (source build)"] = true) :
    chooseStrategyType (detect_package_managers env) = "package-manager" ∧
    (decide_and_execute env).1.status = "done" ∧
    ∃ pre post, (decide_and_execute env).2 =
      pre ++ Event.backup ::
        ((side_install_from_source env env.targetVersion none).2 ++ post) := by
  have hstrat : chooseStrategyType (detect_package_managers env) =
      "package-manager" := by
    unfold chooseStrategyType
    rw [if_pos]
    rw [List.any_eq_true]
    rcases hzp with h | h
    · exact ⟨"zypper", by simp [firstClassManagers], List.elem_iff.mpr h⟩
    · exact ⟨"pkg", by simp [firstClassManagers], List.elem_iff.mpr h⟩
  have hes : executeStrategy env (detect_package_managers env)
      (chooseStrategyType (detect_package_managers env)) =
      some (side_install_from_source env env.targetVersion none).2 := by
    rw [hstrat]
    unfold executeStrategy
    rw [if_pos rfl]
    rcases hhd : (detect_package_managers env).head? with _ | pm
    · exfalso
      rw [List.head?_eq_none_iff] at hhd
      rcases hzp with h | h <;> { rw [hhd] at h; exact absurd h (List.not_mem_nil _) }
    · have hpm : pm ∈ detect_package_managers env := by
        cases hl : detect_package_managers env with
        | nil => rw [hl] at hhd; cases hhd
        | cons a as =>
          rw [hl] at hhd
          have : a = pm := by simpa using hhd
          rw [← this]
          exact List.mem_cons_self a as
      dsimp only
      rw [if_neg (fun h : pm = "apt" => h5.1 (h ▸ hpm)),
        if_neg (fun h : pm = "dnf" ∨ pm = "yum" =>
          h.elim (fun h' => h5.2.1 (h' ▸ hpm))
            (fun h' => h5.2.2.1 (h' ▸ hpm))),
        if_neg (fun h : pm = "apk" => h5.2.2.2.1 (h ▸ hpm)),
        if_neg (fun h : pm = "brew" => h5.2.2.2.2 (h ▸ hpm)),
        if_pos hconf]
  refine ⟨hstrat, ?_, ?_⟩
  · unfold decide_and_execute
    dsimp only
    rw [if_neg (by simp [hdry]), hes]
  · unfold decide_and_execute
    dsimp only
    rw [if_neg (by simp [hdry]), hes]
    dsimp only
    exact ⟨preBackupTrace env,
      (detect_openssl_cli env).2 ++
        (match env.appPath with
         | some app => (detect_application_linking env app).2
         | none => []) ++ (run_smoke_tests env).2 ++ [Event.report],
      by simp⟩

/-- Claim C10 witness: on the host where zypper is the only detected
manager, the strategy is package-manager and the (forced) run
completes with status done via the source build fallback. -/
theorem claim_C10_witness :
    "zypper" ∈ detect_package_managers envZypper ∧
    chooseStrategyType (detect_package_managers envZypper) =
      "package-manager" ∧
    (decide_and_execute envZypper).1.status = "done" := by
  have h := claim_C10 envZypper (Or.inl (by decide))
    ⟨by decide, by decide, by decide, by decide, by decide⟩ rfl (by decide)
  exact ⟨by decide, h.1, h.2.1⟩

end OpensslAgent
